import Mathlib

/-!
Verification of the rama transparent-proxy FFI surface
(`src/ffi/apple/RamaAppleNetworkExtension/Sources/RamaAppleNEFFI/include/rama_apple_ne_ffi.h`).

The repository ships the C header declaring the boundary (types, enums,
callback records and the engine/session entry points); the Rust code behind
those declarations is not part of the source tree here.  The data model below
is translated from the header's struct and enum declarations; the behaviour of
each entry point is modelled from the specification (rule matching §4.1,
config building §4.2, engine lifecycle §4.3, TCP sessions §4.4, UDP sessions
§4.5, callback contract §5/§6).  Byte payloads are `List Nat`, string fields
are `String`, absent optional fields are `Option.none` (the header encodes
them as a NULL pointer with zero length).
-/

namespace RamaNE

/-- Transport protocol of one intercepted flow
(`RamaTransparentProxyFlowProtocol`: TCP = 1, UDP = 2). -/
inductive FlowProtocol
  | tcp
  | udp
deriving DecidableEq, Repr

/-- Protocol filter of a network interception rule
(`RamaTransparentProxyRuleProtocol`: ANY = 0, TCP = 1, UDP = 2). -/
inductive RuleProtocol
  | any
  | tcp
  | udp
deriving DecidableEq, Repr

/-- Traffic-direction filter of a network interception rule
(`RamaTransparentProxyTrafficDirection`: OUTBOUND = 0, INBOUND = 1, ANY = 2). -/
inductive TrafficDirection
  | outbound
  | inbound
  | any
deriving DecidableEq, Repr

/-- Endpoint metadata for one flow side (`RamaTransparentProxyFlowEndpoint`).
An absent endpoint is encoded in the header as `host_utf8 = NULL`,
`host_utf8_len = 0`, `port = 0`; here `host = none` (distinct from a present
empty host, per §3). -/
structure FlowEndpoint where
  host : Option String
  port : Nat
deriving DecidableEq, Repr

/-- Per-flow metadata passed from Swift to Rust
(`RamaTransparentProxyFlowMeta`).  Optional string fields are absent when
encoded as `(NULL, 0)`, here `none`. -/
structure FlowMeta where
  protocol : FlowProtocol
  remoteEndpoint : FlowEndpoint
  localEndpoint : FlowEndpoint
  sourceAppSigningIdentifier : Option String
  sourceAppBundleIdentifier : Option String
deriving DecidableEq, Repr

/-- One transparent-proxy network rule (`RamaTransparentProxyNetworkRule`).
The header carries each CIDR component as pointer/length plus a
`..._is_set` flag; `none` models the unset state.  `remotePrefixLen` models
the pair `remote_prefix` / `remote_prefix_is_set`, likewise for the local
side. -/
structure NetworkRule where
  remoteNetwork : Option String
  remotePrefixLen : Option Nat
  localNetwork : Option String
  localPrefixLen : Option Nat
  protocol : RuleProtocol
  direction : TrafficDirection
deriving DecidableEq, Repr

/-- Transparent proxy configuration returned to Swift
(`RamaTransparentProxyConfig`): a placeholder tunnel remote address plus the
ordered rule sequence. -/
structure RamaTransparentProxyConfig where
  tunnelRemoteAddress : String
  rules : List NetworkRule
deriving DecidableEq, Repr

/-- Split a character list at every dot, keeping empty groups. -/
def splitOnDot : List Char → List (List Char)
  | [] => [[]]
  | c :: rest =>
      let r := splitOnDot rest
      if c = '.' then [] :: r
      else
        match r with
        | [] => [[c]]
        | g :: gs => (c :: g) :: gs

/-- Decimal value of a digit-only character list; `none` when a non-digit
occurs. -/
def decDigits (cs : List Char) : Option Nat :=
  cs.foldl
    (fun acc c =>
      match acc with
      | none => none
      | some n => if c.isDigit then some (n * 10 + (c.toNat - 48)) else none)
    (some 0)

/-- Modelled from the spec: one decimal IPv4 octet (0–255); the parsing code
behind the header is not in the source tree.  Parse failure yields `none`. -/
def parseOctet (cs : List Char) : Option Nat :=
  if cs.isEmpty then none
  else
    match decDigits cs with
    | some n => if n ≤ 255 then some n else none
    | none => none

/-- Modelled from the spec: dotted-quad IPv4 address parsing used by rule
validation and CIDR matching (§4.1/§4.2 speak of a network string that may
fail to parse; the parser itself is not in the source tree).  Returns the
address as a 32-bit value, or `none` on malformed input. -/
def parseIPv4 (s : String) : Option Nat :=
  match (splitOnDot s.data).mapM parseOctet with
  | some [a, b, c, d] => some (((a * 256 + b) * 256 + c) * 256 + d)
  | _ => none

/-- Modelled from the spec: CIDR containment test (§4.1(c): the endpoint host
"falls inside that CIDR block"); the matcher implementation is not in the
source tree.  Hosts or networks that fail to parse never match
(fail-closed). -/
def hostInCidr (host : String) (network : String) (prefixLen : Nat) : Bool :=
  match parseIPv4 host, parseIPv4 network with
  | some h, some n =>
      prefixLen ≤ 32 && h / 2 ^ (32 - prefixLen) = n / 2 ^ (32 - prefixLen)
  | _, _ => false

/-- Modelled from the spec: §4.1(a), the rule protocol filter is ANY or equals
the flow's protocol. -/
def protocolMatches (rp : RuleProtocol) (fp : FlowProtocol) : Bool :=
  match rp, fp with
  | .any, _ => true
  | .tcp, .tcp => true
  | .udp, .udp => true
  | _, _ => false

/-- Modelled from the spec: §4.1(b), the rule direction filter is satisfied by
the flow's direction. -/
def directionMatches (rd : TrafficDirection) (flowDir : TrafficDirection) : Bool :=
  rd = .any || rd = flowDir

/-- Modelled from the spec: §4.1(c)/(d), an optional network constraint of a
rule against one flow endpoint.  An unset network constrains nothing; an
absent meta endpoint never matches a rule requiring a network.  When the
network is set without an explicit CIDR length the full 32-bit length is
assumed (the spec leaves this case open). -/
def networkConstraintMatches (ep : FlowEndpoint) (net : Option String)
    (prefixLen : Option Nat) : Bool :=
  match net with
  | none => true
  | some n =>
      match ep.host with
      | none => false
      | some h => hostInCidr h n (prefixLen.getD 32)

/-- Modelled from the spec: §4.1, whether one rule matches one flow's
metadata.  The flow direction as known at the call site defaults to OUTBOUND
at flow-creation time (§4.1(b)); the matcher implementation is not in the
source tree. -/
def ruleMatches (r : NetworkRule) (m : FlowMeta) : Bool :=
  protocolMatches r.protocol m.protocol &&
  directionMatches r.direction .outbound &&
  networkConstraintMatches m.remoteEndpoint r.remoteNetwork r.remotePrefixLen &&
  networkConstraintMatches m.localEndpoint r.localNetwork r.localPrefixLen

/-- Modelled from the spec: §4.1, iterate the rules in configured order;
the first matching rule returns `true`, and if no rule matches the result is
`false`.  The implementation behind
`rama_transparent_proxy_should_intercept_flow` is not in the source tree. -/
def interceptDecision (m : FlowMeta) : List NetworkRule → Bool
  | [] => false
  | r :: rs => if ruleMatches r m then true else interceptDecision m rs

/-- Modelled from the spec: `rama_transparent_proxy_should_intercept_flow`
(header: "Returns false if `meta` is NULL"; §4.1: absent meta yields false,
fail-closed).  The engine's configured rule set is passed explicitly; the
implementation is not in the source tree. -/
def should_intercept_flow (meta : Option FlowMeta) (rules : List NetworkRule) : Bool :=
  match meta with
  | none => false
  | some m => interceptDecision m rules

/-- Modelled from the spec: §4.2, whether one rule passes config validation
("a network string that fails to parse" is the malformed case named by the
spec); the validation code is not in the source tree.  A set network string
must parse; an unset one constrains nothing. -/
def ruleIsValid (r : NetworkRule) : Bool :=
  (match r.remoteNetwork with
   | none => true
   | some n => (parseIPv4 n).isSome) &&
  (match r.localNetwork with
   | none => true
   | some n => (parseIPv4 n).isSome)

/-- Modelled from the spec: the placeholder tunnel remote address of the
startup configuration (§4.2: "not a real network endpoint"); its concrete
value is not in the source tree. -/
def tunnelRemoteAddressPlaceholder : String := "127.0.0.1"

/-- Modelled from the spec: §4.2 `build_startup_config` behind
`rama_transparent_proxy_get_config` (header: "Returns an owned pointer, or
NULL on failure"), whose implementation is not in the source tree.  On a
malformed rule set it returns a failure signal (`none`); otherwise the
ordered rule sequence is preserved as-is next to the placeholder tunnel
address. -/
def rama_transparent_proxy_get_config (rules : List NetworkRule) :
    Option RamaTransparentProxyConfig :=
  if rules.all ruleIsValid then
    some ⟨tunnelRemoteAddressPlaceholder, rules⟩
  else
    none

/-! ## Engine lifecycle (§4.3) -/

/-- Engine lifecycle state (§3/§4.3: Created, Running, Stopped). -/
inductive EngineState
  | created
  | running
  | stopped
deriving DecidableEq, Repr

/-- The engine object behind `RamaTransparentProxyEngine`: lifecycle state,
the configured rule set, and the last propagated stop reason (§4.3: the
opaque numeric reason code is only logged/propagated). -/
structure Engine where
  state : EngineState
  rules : List NetworkRule
  lastStopReason : Option Int
deriving DecidableEq, Repr

/-- Modelled from the spec: a freshly allocated engine
(`rama_transparent_proxy_engine_new`), in the Created state; the constructor
code is not in the source tree. -/
def Engine.new (rules : List NetworkRule) : Engine :=
  ⟨.created, rules, none⟩

/-- Modelled from the spec: §4.3 `start()`, behind
`rama_transparent_proxy_engine_start`; the implementation is not in the
source tree.  `Created --start()--> Running`; on any other state it is a
no-op. -/
def Engine.start (e : Engine) : Engine :=
  match e.state with
  | .created => { e with state := .running }
  | _ => e

/-- Modelled from the spec: §4.3 `stop(reason)`, behind
`rama_transparent_proxy_engine_stop`; the implementation is not in the source
tree.  `Running --stop(reason)--> Stopped`, recording the propagated opaque
reason; on a non-Running engine it is a no-op. -/
def Engine.stop (e : Engine) (reason : Int) : Engine :=
  match e.state with
  | .running => { e with state := .stopped, lastStopReason := some reason }
  | _ => e

/-! ## TCP sessions (§4.4)

A TCP session relays a byte stream in both directions with independent
half-close tracking.  Its observable behaviour is modelled as a step function
over an explicit state: each boundary operation or server-side transport
event maps the state to a successor state, a list of events forwarded toward
the server-side transport, and a list of callback invocations delivered to
the registered client-side callbacks. -/

/-- State of one TCP session (§3/§4.4): independent half-close flags for the
client→server and server→client directions, plus whether the session handle
was freed. -/
structure TcpSessionState where
  clientToServerClosed : Bool
  serverToClientClosed : Bool
  freed : Bool
deriving DecidableEq, Repr

/-- A freshly created TCP session: both directions open, not freed. -/
def TcpSessionState.fresh : TcpSessionState := ⟨false, false, false⟩

/-- One server-side-bound effect of a TCP session: bytes forwarded toward the
server-side transport, or a forwarded EOF/shutdown intent (§4.4). -/
inductive TcpForward
  | bytes (data : List Nat)
  | eof
deriving DecidableEq, Repr

/-- One invocation of the registered TCP callbacks
(`RamaTransparentProxyTcpSessionCallbacks`): `on_server_bytes` with a
borrowed view, or `on_server_closed`. -/
inductive TcpCallback
  | serverBytes (data : List Nat)
  | serverClosed
deriving DecidableEq, Repr

/-- One event a TCP session reacts to: a boundary call
(`on_client_bytes`, `on_client_eof`, `free`) or a server-side transport
event (bytes produced, transport closed). -/
inductive TcpOp
  | clientBytes (data : List Nat)
  | clientEof
  | serverBytes (data : List Nat)
  | serverClosed
  | free
deriving DecidableEq, Repr

/-- Modelled from the spec: the TCP session step behind
`rama_transparent_proxy_tcp_session_on_client_bytes` /
`..._on_client_eof` / `..._free` and the server-side delivery of §4.4; the
session implementation is not in the source tree.
A freed session reacts to nothing and invokes no callback (§4.4/§5 free
contract); `on_client_bytes` forwards the bytes toward the server side when
the client→server direction is open; `on_client_eof` marks client→server
HalfClosed and forwards the EOF intent once; server-produced bytes invoke the
`on_server_bytes` callback; server-side closure invokes `on_server_closed`
exactly once and transitions server→client to Closed. -/
def tcpStep (s : TcpSessionState) (op : TcpOp) :
    TcpSessionState × List TcpForward × List TcpCallback :=
  if s.freed then (s, [], [])
  else
    match op with
    | .clientBytes d =>
        if s.clientToServerClosed then (s, [], [])
        else (s, [.bytes d], [])
    | .clientEof =>
        if s.clientToServerClosed then (s, [], [])
        else ({ s with clientToServerClosed := true }, [.eof], [])
    | .serverBytes d =>
        if s.serverToClientClosed then (s, [], [])
        else (s, [], [.serverBytes d])
    | .serverClosed =>
        if s.serverToClientClosed then (s, [], [])
        else ({ s with serverToClientClosed := true }, [], [.serverClosed])
    | .free =>
        ({ s with freed := true }, [], [])

/-- Run a TCP session over a sequence of events, collecting the forwarded
server-bound effects and the callback invocations in order. -/
def tcpRun (s : TcpSessionState) :
    List TcpOp → TcpSessionState × List TcpForward × List TcpCallback
  | [] => (s, [], [])
  | op :: ops =>
      let r := tcpStep s op
      let rest := tcpRun r.1 ops
      (rest.1, r.2.1 ++ rest.2.1, r.2.2 ++ rest.2.2)

/-- Number of `on_server_closed` invocations in a TCP callback trace. -/
def tcpClosedCount (cbs : List TcpCallback) : Nat :=
  cbs.countP fun c =>
    match c with
    | .serverClosed => true
    | _ => false

/-! ## UDP sessions (§4.5) -/

/-- State of one UDP session (§3/§4.5): the single flow-level Open/Closed
flag (terminal, irreversible), whether the `on_server_closed` callback has
already fired, and whether the session handle was freed. -/
structure UdpSessionState where
  closed : Bool
  serverClosedFired : Bool
  freed : Bool
deriving DecidableEq, Repr

/-- A freshly created UDP session: open, no callback fired, not freed. -/
def UdpSessionState.fresh : UdpSessionState := ⟨false, false, false⟩

/-- One server-side-bound effect of a UDP session: one discrete datagram
forwarded toward the server-side transport (§4.5: boundaries preserved). -/
inductive UdpForward
  | datagram (data : List Nat)
deriving DecidableEq, Repr

/-- One invocation of the registered UDP callbacks
(`RamaTransparentProxyUdpSessionCallbacks`): `on_server_datagram` with one
datagram, or `on_server_closed`. -/
inductive UdpCallback
  | serverDatagram (data : List Nat)
  | serverClosed
deriving DecidableEq, Repr

/-- One event a UDP session reacts to: a boundary call
(`on_client_datagram`, `on_client_close`, `free`) or a server-side transport
event (datagram received, flow closed). -/
inductive UdpOp
  | clientDatagram (data : List Nat)
  | clientClose
  | serverDatagram (data : List Nat)
  | serverClosed
  | free
deriving DecidableEq, Repr

/-- Modelled from the spec: the UDP session step behind
`rama_transparent_proxy_udp_session_on_client_datagram` /
`..._on_client_close` / `..._free` and the server-side delivery of §4.5; the
session implementation is not in the source tree.
A freed session reacts to nothing and invokes no callback; each client
datagram is forwarded as one discrete unit while the flow is open; a Closed
session silently drops further client datagrams (no error — the step is
total); `on_client_close` transitions to Closed and stops forwarding;
each server datagram triggers `on_server_datagram` once; server-side flow
closure triggers `on_server_closed` exactly once and closes the flow. -/
def udpStep (s : UdpSessionState) (op : UdpOp) :
    UdpSessionState × List UdpForward × List UdpCallback :=
  if s.freed then (s, [], [])
  else
    match op with
    | .clientDatagram d =>
        if s.closed then (s, [], [])
        else (s, [.datagram d], [])
    | .clientClose =>
        if s.closed then (s, [], [])
        else ({ s with closed := true }, [], [])
    | .serverDatagram d =>
        if s.closed then (s, [], [])
        else (s, [], [.serverDatagram d])
    | .serverClosed =>
        if s.closed || s.serverClosedFired then (s, [], [])
        else ({ s with closed := true, serverClosedFired := true }, [],
              [.serverClosed])
    | .free =>
        ({ s with freed := true }, [], [])

/-- Run a UDP session over a sequence of events, collecting the forwarded
datagrams and the callback invocations in order. -/
def udpRun (s : UdpSessionState) :
    List UdpOp → UdpSessionState × List UdpForward × List UdpCallback
  | [] => (s, [], [])
  | op :: ops =>
      let r := udpStep s op
      let rest := udpRun r.1 ops
      (rest.1, r.2.1 ++ rest.2.1, r.2.2 ++ rest.2.2)

/-- Number of `on_server_closed` invocations in a UDP callback trace. -/
def udpClosedCount (cbs : List UdpCallback) : Nat :=
  cbs.countP fun c =>
    match c with
    | .serverClosed => true
    | _ => false

/-! ## FFI pointer boundary

Each handle-consuming entry point receives a possibly-NULL pointer; `none`
models NULL and `some` a live object the pointer refers to.  The result is
the state of the pointed-to object after the call (`none` when there is no
object, or when `free` released it). -/

/-- Modelled from the spec: `rama_transparent_proxy_engine_free` (header:
"NULL is allowed and ignored"); the implementation is not in the source
tree.  Freeing releases the engine object; a NULL handle does nothing. -/
def rama_transparent_proxy_engine_free : Option Engine → Option Engine
  | none => none
  | some _ => none

/-- Modelled from the spec: `rama_transparent_proxy_engine_start` (header:
"NULL is allowed and ignored"); the implementation is not in the source
tree. -/
def rama_transparent_proxy_engine_start : Option Engine → Option Engine
  | none => none
  | some e => some e.start

/-- Modelled from the spec: `rama_transparent_proxy_engine_stop` (header:
"NULL is allowed and ignored"); the implementation is not in the source
tree. -/
def rama_transparent_proxy_engine_stop : Option Engine → Int → Option Engine
  | none, _ => none
  | some e, reason => some (e.stop reason)

/-- Modelled from the spec: `rama_transparent_proxy_tcp_session_free`
(header: "NULL is allowed and ignored"); the implementation is not in the
source tree.  On a live session it performs the `free` step. -/
def rama_transparent_proxy_tcp_session_free :
    Option TcpSessionState → Option TcpSessionState
  | none => none
  | some s => some (tcpStep s .free).1

/-- Modelled from the spec: `rama_transparent_proxy_udp_session_free`
(header: "NULL is allowed and ignored"); the implementation is not in the
source tree.  On a live session it performs the `free` step. -/
def rama_transparent_proxy_udp_session_free :
    Option UdpSessionState → Option UdpSessionState
  | none => none
  | some s => some (udpStep s .free).1

/-! ## Helper lemmas -/

/-- A freed TCP session reacts to no event: the state is unchanged, nothing
is forwarded, no callback fires. -/
theorem tcpStep_of_freed (s : TcpSessionState) (op : TcpOp) (h : s.freed = true) :
    tcpStep s op = (s, [], []) := by
  simp [tcpStep, h]

/-- A freed TCP session stays inert over any sequence of events. -/
theorem tcpRun_of_freed (s : TcpSessionState) (ops : List TcpOp)
    (h : s.freed = true) : tcpRun s ops = (s, [], []) := by
  induction ops with
  | nil => rfl
  | cons op ops ih => simp [tcpRun, tcpStep_of_freed s op h, ih]

/-- The `free` step marks a TCP session freed. -/
theorem tcpStep_free_sets_freed (s : TcpSessionState) :
    ((tcpStep s .free).1).freed = true := by
  cases h : s.freed <;> simp [tcpStep, h]

/-- A freed UDP session reacts to no event: the state is unchanged, nothing
is forwarded, no callback fires. -/
theorem udpStep_of_freed (s : UdpSessionState) (op : UdpOp) (h : s.freed = true) :
    udpStep s op = (s, [], []) := by
  simp [udpStep, h]

/-- A freed UDP session stays inert over any sequence of events. -/
theorem udpRun_of_freed (s : UdpSessionState) (ops : List UdpOp)
    (h : s.freed = true) : udpRun s ops = (s, [], []) := by
  induction ops with
  | nil => rfl
  | cons op ops ih => simp [udpRun, udpStep_of_freed s op h, ih]

/-- The `free` step marks a UDP session freed. -/
theorem udpStep_free_sets_freed (s : UdpSessionState) :
    ((udpStep s .free).1).freed = true := by
  cases h : s.freed <;> simp [udpStep, h]

/-- C1: For every session (TCP or UDP), in every state and for every
interleaving of pending server-side events, once the session's free
operation begins no registered callback (server bytes/datagram or server
closed) is ever invoked again for that session, even if in-flight
server-side data was pending at the moment of free: every event sequence
run after the `free` step — including pending `serverBytes` /
`serverDatagram` / `serverClosed` transport events — produces an empty
callback trace. -/
theorem no_callback_after_free (ts : TcpSessionState) (tops : List TcpOp)
    (us : UdpSessionState) (uops : List UdpOp) :
    (tcpRun ((tcpStep ts .free).1) tops).2.2 = [] ∧
    (udpRun ((udpStep us .free).1) uops).2.2 = [] := by
  constructor
  · rw [tcpRun_of_freed _ _ (tcpStep_free_sets_freed ts)]
  · rw [udpRun_of_freed _ _ (udpStep_free_sets_freed us)]

/-- C2: `should_intercept_flow` called with an absent (NULL) FlowMeta
returns `false`, for every configured rule set (fail-closed: a flow that
cannot be classified is never intercepted). -/
theorem should_intercept_flow_null (rules : List NetworkRule) :
    should_intercept_flow none rules = false := rfl

/-- C10: Every handle-consuming lifecycle operation at the boundary
tolerates a NULL handle: `engine_free`, `engine_start`, `engine_stop` (for
every reason code), and the TCP/UDP session free operations, when given a
NULL pointer, do nothing and return normally — the pointed-to state stays
`none`, with no crash (all the boundary functions are total). -/
theorem null_handle_noop (reason : Int) :
    rama_transparent_proxy_engine_free none = none ∧
    rama_transparent_proxy_engine_start none = none ∧
    rama_transparent_proxy_engine_stop none reason = none ∧
    rama_transparent_proxy_tcp_session_free none = none ∧
    rama_transparent_proxy_udp_session_free none = none :=
  ⟨rfl, rfl, rfl, rfl, rfl⟩

/-- Rules that all fail to match are skipped by the ordered iteration. -/
theorem interceptDecision_append_of_no_match (m : FlowMeta)
    (pre rest : List NetworkRule)
    (h : ∀ r ∈ pre, ruleMatches r m = false) :
    interceptDecision m (pre ++ rest) = interceptDecision m rest := by
  induction pre with
  | nil => rfl
  | cons p ps ih =>
      have hp : ruleMatches p m = false := h p (List.mem_cons_self p ps)
      simp only [List.cons_append, interceptDecision, hp, Bool.false_eq_true,
        if_false]
      exact ih fun r hr => h r (List.mem_cons_of_mem p hr)

/-- When no rule matches, the decision is `false`. -/
theorem interceptDecision_of_no_match (m : FlowMeta) (rules : List NetworkRule)
    (h : ∀ r ∈ rules, ruleMatches r m = false) :
    interceptDecision m rules = false := by
  have := interceptDecision_append_of_no_match m rules [] h
  simpa using this

/-- C3: `should_intercept` evaluates rules in configured order with
first-match-wins: for every meta and every rule list `[ruleA, ruleB]` where
both rules match the meta, the decision equals the decision of evaluating
only `ruleA` (and is `true`); more generally the first matching rule returns
`true` whatever follows it, and if no rule matches the result is `false`. -/
theorem first_match_wins :
    (∀ (m : FlowMeta) (rA rB : NetworkRule),
        ruleMatches rA m = true → ruleMatches rB m = true →
        should_intercept_flow (some m) [rA, rB] =
            should_intercept_flow (some m) [rA] ∧
        should_intercept_flow (some m) [rA, rB] = true) ∧
    (∀ (m : FlowMeta) (skipped : List NetworkRule) (r : NetworkRule)
        (rest : List NetworkRule),
        (∀ r' ∈ skipped, ruleMatches r' m = false) → ruleMatches r m = true →
        should_intercept_flow (some m) (skipped ++ r :: rest) = true) ∧
    (∀ (m : FlowMeta) (rules : List NetworkRule),
        (∀ r ∈ rules, ruleMatches r m = false) →
        should_intercept_flow (some m) rules = false) := by
  refine ⟨?_, ?_, ?_⟩
  · intro m rA rB hA _hB
    constructor <;> simp [should_intercept_flow, interceptDecision, hA]
  · intro m skipped r rest hskip hr
    have h := interceptDecision_append_of_no_match m skipped (r :: rest) hskip
    simp [should_intercept_flow, h, interceptDecision, hr]
  · intro m rules h
    simpa [should_intercept_flow] using interceptDecision_of_no_match m rules h

/-- Witness for C3 at concrete inputs: a TCP flow meta against two rules that
both match it (decision for the pair equals the decision for the first rule
alone), and the empty rule list (vacuously no match, decision `false`). -/
theorem first_match_wins_witness :
    (should_intercept_flow
        (some ⟨.tcp, ⟨some "10.0.0.1", 443⟩, ⟨none, 0⟩, none, none⟩)
        [⟨none, none, none, none, .tcp, .any⟩,
         ⟨none, none, none, none, .any, .outbound⟩] =
      should_intercept_flow
        (some ⟨.tcp, ⟨some "10.0.0.1", 443⟩, ⟨none, 0⟩, none, none⟩)
        [⟨none, none, none, none, .tcp, .any⟩]) ∧
    should_intercept_flow
        (some ⟨.tcp, ⟨some "10.0.0.1", 443⟩, ⟨none, 0⟩, none, none⟩) [] =
      false :=
  ⟨(first_match_wins.1 _ _ _ (by decide) (by decide)).1,
   first_match_wins.2.2 _ [] (by simp)⟩

/-- C4: Calling `on_client_eof` twice on the same TCP session has the same
observable effect as calling it once — identical final state, identical
server-bound forwards (so no duplicate EOF reaches the server-side
transport) and identical callbacks — and on a live session the first call
leaves the client→server direction HalfClosed. -/
theorem on_client_eof_idempotent (s : TcpSessionState) (h : s.freed = false) :
    tcpRun s [.clientEof, .clientEof] = tcpRun s [.clientEof] ∧
    ((tcpStep s .clientEof).1).clientToServerClosed = true := by
  rcases s with ⟨c2s, s2c, fr⟩
  cases fr
  · cases c2s <;> cases s2c <;> decide
  · simp at h

/-- Witness for C4 at a concrete input: a fresh TCP session. -/
theorem on_client_eof_idempotent_witness :
    tcpRun TcpSessionState.fresh [.clientEof, .clientEof] =
        tcpRun TcpSessionState.fresh [.clientEof] ∧
    ((tcpStep TcpSessionState.fresh .clientEof).1).clientToServerClosed =
        true :=
  on_client_eof_idempotent TcpSessionState.fresh rfl

/-- On a closed UDP flow, client datagrams are silently dropped: no forward,
no callback, no state change. -/
theorem udpRun_clientDatagram_of_closed (s : UdpSessionState)
    (ds : List (List Nat)) (h : s.closed = true) :
    udpRun s (ds.map UdpOp.clientDatagram) = (s, [], []) := by
  induction ds with
  | nil => rfl
  | cons d ds ih =>
      have hstep : udpStep s (.clientDatagram d) = (s, [], []) := by
        cases hf : s.freed <;> simp [udpStep, hf, h]
      simp [List.map_cons, udpRun, hstep, ih]

/-- `on_client_close` on a live UDP session leaves the flow Closed. -/
theorem udpStep_clientClose_closed (s : UdpSessionState) (h : s.freed = false) :
    ((udpStep s .clientClose).1).closed = true := by
  cases hc : s.closed <;> simp [udpStep, h, hc]

/-- C5: For every live UDP session, after `on_client_close` every subsequent
`on_client_datagram` call forwards no traffic toward the server side and
produces no error — the step function is total, and the post-close run
yields empty forward and callback traces (Closed is terminal; datagrams are
silently dropped). -/
theorem udp_post_close_drop (s : UdpSessionState) (ds : List (List Nat))
    (h : s.freed = false) :
    (udpRun ((udpStep s .clientClose).1) (ds.map UdpOp.clientDatagram)).2.1 =
        [] ∧
    (udpRun ((udpStep s .clientClose).1) (ds.map UdpOp.clientDatagram)).2.2 =
        [] := by
  rw [udpRun_clientDatagram_of_closed _ _ (udpStep_clientClose_closed s h)]
  exact ⟨rfl, rfl⟩

/-- Witness for C5 at a concrete input: a fresh UDP session, closed, then two
client datagrams. -/
theorem udp_post_close_drop_witness :
    (udpRun ((udpStep UdpSessionState.fresh .clientClose).1)
        ([[1], [2, 3]].map UdpOp.clientDatagram)).2.1 = [] ∧
    (udpRun ((udpStep UdpSessionState.fresh .clientClose).1)
        ([[1], [2, 3]].map UdpOp.clientDatagram)).2.2 = [] :=
  udp_post_close_drop UdpSessionState.fresh [[1], [2, 3]] rfl

/-- C6: UDP datagram boundaries are preserved: for every open, live UDP
session and every sequence of `on_client_datagram` calls, each datagram is
forwarded toward the server side as one discrete unit in call order — the
forward trace is exactly the input sequence, never coalesced with another
datagram nor split across deliveries. -/
theorem udp_datagram_boundaries (s : UdpSessionState) (ds : List (List Nat))
    (hf : s.freed = false) (hc : s.closed = false) :
    (udpRun s (ds.map UdpOp.clientDatagram)).2.1 =
      ds.map UdpForward.datagram := by
  induction ds with
  | nil => rfl
  | cons d ds ih =>
      have hstep : udpStep s (.clientDatagram d) = (s, [.datagram d], []) := by
        simp [udpStep, hf, hc]
      simp [List.map_cons, udpRun, hstep, ih]

/-- Witness for C6 at a concrete input: a fresh UDP session forwarding
`[0x01]` then `[0x02, 0x03]` as two discrete units (in particular not as a
single `[0x01, 0x02, 0x03]`). -/
theorem udp_datagram_boundaries_witness :
    (udpRun UdpSessionState.fresh
        ([[1], [2, 3]].map UdpOp.clientDatagram)).2.1 =
      [[1], [2, 3]].map UdpForward.datagram :=
  udp_datagram_boundaries UdpSessionState.fresh [[1], [2, 3]] rfl rfl

/-- A TCP session whose server→client direction is already Closed emits no
further `on_server_closed` callback at any single step, and the direction
stays Closed. -/
theorem tcpStep_closed_inert (s : TcpSessionState) (op : TcpOp)
    (h : s.serverToClientClosed = true) :
    tcpClosedCount (tcpStep s op).2.2 = 0 ∧
    ((tcpStep s op).1).serverToClientClosed = true := by
  cases op <;> cases hf : s.freed <;> cases hc : s.clientToServerClosed <;>
    simp [tcpStep, tcpClosedCount, h, hf, hc]

/-- A TCP session whose server→client direction is already Closed emits no
further `on_server_closed` callback over any run. -/
theorem tcpClosedCount_run_of_closed (s : TcpSessionState) (ops : List TcpOp)
    (h : s.serverToClientClosed = true) :
    tcpClosedCount (tcpRun s ops).2.2 = 0 := by
  induction ops generalizing s with
  | nil => rfl
  | cons op ops ih =>
      obtain ⟨h1, h2⟩ := tcpStep_closed_inert s op h
      have h3 := ih _ h2
      simp only [tcpRun, tcpClosedCount, List.countP_append] at h1 h3 ⊢
      omega

/-- Any single TCP step either emits no `on_server_closed` callback, or emits
exactly one and leaves the server→client direction Closed. -/
theorem tcpStep_closedCount_cases (s : TcpSessionState) (op : TcpOp) :
    tcpClosedCount (tcpStep s op).2.2 = 0 ∨
    (tcpClosedCount (tcpStep s op).2.2 = 1 ∧
      ((tcpStep s op).1).serverToClientClosed = true) := by
  rcases s with ⟨c2s, s2c, fr⟩
  cases op <;> cases fr <;> cases s2c <;> cases c2s <;>
    simp [tcpStep, tcpClosedCount]

/-- Over any run of a TCP session, `on_server_closed` fires at most once. -/
theorem tcpClosedCount_run_le_one (s : TcpSessionState) (ops : List TcpOp) :
    tcpClosedCount (tcpRun s ops).2.2 ≤ 1 := by
  induction ops generalizing s with
  | nil => simp [tcpRun, tcpClosedCount]
  | cons op ops ih =>
      rcases tcpStep_closedCount_cases s op with h | ⟨h1, h2⟩
      · have h3 := ih (tcpStep s op).1
        simp only [tcpRun, tcpClosedCount, List.countP_append] at h h3 ⊢
        omega
      · have h3 := tcpClosedCount_run_of_closed (tcpStep s op).1 ops h2
        simp only [tcpRun, tcpClosedCount, List.countP_append] at h1 h3 ⊢
        omega

/-- A Closed UDP session emits no further `on_server_closed` callback at any
single step, and stays Closed. -/
theorem udpStep_closed_inert (s : UdpSessionState) (op : UdpOp)
    (h : s.closed = true) :
    udpClosedCount (udpStep s op).2.2 = 0 ∧
    ((udpStep s op).1).closed = true := by
  cases op <;> cases hf : s.freed <;> cases hd : s.serverClosedFired <;>
    simp [udpStep, udpClosedCount, h, hf, hd]

/-- A Closed UDP session emits no further `on_server_closed` callback over
any run. -/
theorem udpClosedCount_run_of_closed (s : UdpSessionState) (ops : List UdpOp)
    (h : s.closed = true) :
    udpClosedCount (udpRun s ops).2.2 = 0 := by
  induction ops generalizing s with
  | nil => rfl
  | cons op ops ih =>
      obtain ⟨h1, h2⟩ := udpStep_closed_inert s op h
      have h3 := ih _ h2
      simp only [udpRun, udpClosedCount, List.countP_append] at h1 h3 ⊢
      omega

/-- Any single UDP step either emits no `on_server_closed` callback, or
emits exactly one and leaves the flow Closed. -/
theorem udpStep_closedCount_cases (s : UdpSessionState) (op : UdpOp) :
    udpClosedCount (udpStep s op).2.2 = 0 ∨
    (udpClosedCount (udpStep s op).2.2 = 1 ∧
      ((udpStep s op).1).closed = true) := by
  rcases s with ⟨cl, fd, fr⟩
  cases op <;> cases fr <;> cases cl <;> cases fd <;>
    simp [udpStep, udpClosedCount]

/-- Over any run of a UDP session, `on_server_closed` fires at most once. -/
theorem udpClosedCount_run_le_one (s : UdpSessionState) (ops : List UdpOp) :
    udpClosedCount (udpRun s ops).2.2 ≤ 1 := by
  induction ops generalizing s with
  | nil => simp [udpRun, udpClosedCount]
  | cons op ops ih =>
      rcases udpStep_closedCount_cases s op with h | ⟨h1, h2⟩
      · have h3 := ih (udpStep s op).1
        simp only [udpRun, udpClosedCount, List.countP_append] at h h3 ⊢
        omega
      · have h3 := udpClosedCount_run_of_closed (udpStep s op).1 ops h2
        simp only [udpRun, udpClosedCount, List.countP_append] at h1 h3 ⊢
        omega

/-- C7: For every session (TCP or UDP), the registered `on_server_closed`
callback is invoked at most once over the session's whole lifetime — over
every run from every state its count in the callback trace is at most 1 —
and it is invoked exactly once at the step where the server-side transport
closes while the session is still alive (not freed, direction/flow not yet
closed). -/
theorem server_closed_at_most_once :
    (∀ (s : TcpSessionState) (ops : List TcpOp),
        tcpClosedCount (tcpRun s ops).2.2 ≤ 1) ∧
    (∀ (s : UdpSessionState) (ops : List UdpOp),
        udpClosedCount (udpRun s ops).2.2 ≤ 1) ∧
    (∀ s : TcpSessionState, s.freed = false → s.serverToClientClosed = false →
        (tcpStep s .serverClosed).2.2 = [.serverClosed]) ∧
    (∀ s : UdpSessionState, s.freed = false → s.closed = false →
        s.serverClosedFired = false →
        (udpStep s .serverClosed).2.2 = [.serverClosed]) := by
  refine ⟨tcpClosedCount_run_le_one, udpClosedCount_run_le_one, ?_, ?_⟩
  · intro s h1 h2
    simp [tcpStep, h1, h2]
  · intro s h1 h2 h3
    simp [udpStep, h1, h2, h3]

/-- Witness for C7 at concrete inputs: a fresh TCP session run over a trace
with two pending server-side closure events fires `on_server_closed` at most
once, and fresh TCP/UDP sessions fire it exactly once at the closing step. -/
theorem server_closed_at_most_once_witness :
    tcpClosedCount (tcpRun TcpSessionState.fresh
        [.serverBytes [7], .serverClosed, .serverClosed]).2.2 ≤ 1 ∧
    (tcpStep TcpSessionState.fresh .serverClosed).2.2 = [.serverClosed] ∧
    (udpStep UdpSessionState.fresh .serverClosed).2.2 = [.serverClosed] :=
  ⟨server_closed_at_most_once.1 TcpSessionState.fresh _,
   server_closed_at_most_once.2.2.1 TcpSessionState.fresh rfl rfl,
   server_closed_at_most_once.2.2.2 UdpSessionState.fresh rfl rfl rfl⟩

/-- C8: Configuration round-trip: for every rule set that passes config
validation, the startup-config operation returns the rule sequence
structurally equal to the input — same rules, same order, same per-rule
fields — plus the placeholder tunnel address. -/
theorem get_config_round_trip (rules : List NetworkRule)
    (h : rules.all ruleIsValid = true) :
    rama_transparent_proxy_get_config rules =
      some ⟨tunnelRemoteAddressPlaceholder, rules⟩ := by
  simp [rama_transparent_proxy_get_config, h]

/-- Witness for C8 at a concrete input: a two-rule set with parseable CIDR
networks round-trips unchanged. -/
theorem get_config_round_trip_witness :
    rama_transparent_proxy_get_config
        [⟨some "10.0.0.0", some 8, none, none, .tcp, .outbound⟩,
         ⟨none, none, some "192.168.1.0", some 24, .udp, .any⟩] =
      some ⟨tunnelRemoteAddressPlaceholder,
        [⟨some "10.0.0.0", some 8, none, none, .tcp, .outbound⟩,
         ⟨none, none, some "192.168.1.0", some 24, .udp, .any⟩]⟩ :=
  get_config_round_trip _ (by decide)

/-- C9: Engine lifecycle transitions are
`Created --start()--> Running --stop(reason)--> Stopped`, and the boundary
operations are no-ops outside their enabling state: `start()` on an
already-Running engine leaves the whole engine unchanged, and `stop(reason)`
on a non-Running engine likewise changes nothing, for every reason code. -/
theorem engine_lifecycle (e : Engine) (reason : Int) :
    (e.state = .created →
        rama_transparent_proxy_engine_start (some e) =
          some { e with state := .running }) ∧
    (e.state = .running →
        rama_transparent_proxy_engine_stop (some e) reason =
          some { e with state := .stopped, lastStopReason := some reason }) ∧
    (e.state = .running →
        rama_transparent_proxy_engine_start (some e) = some e) ∧
    (e.state ≠ .running →
        rama_transparent_proxy_engine_stop (some e) reason = some e) := by
  refine ⟨?_, ?_, ?_, ?_⟩ <;> intro h
  · simp [rama_transparent_proxy_engine_start, Engine.start, h]
  · simp [rama_transparent_proxy_engine_stop, Engine.stop, h]
  · simp [rama_transparent_proxy_engine_start, Engine.start, h]
  · rcases e with ⟨st, rules, lr⟩
    cases st <;> simp_all [rama_transparent_proxy_engine_stop, Engine.stop]

/-- Witness for C9 at concrete inputs: a fresh (Created) engine starts into
Running; a Running engine is unchanged by `start` and stops into Stopped
with the reason recorded; a Created engine is unchanged by `stop`. -/
theorem engine_lifecycle_witness :
    rama_transparent_proxy_engine_start (some (Engine.new [])) =
        some { Engine.new [] with state := .running } ∧
    rama_transparent_proxy_engine_start
        (some (⟨.running, [], none⟩ : Engine)) =
        some (⟨.running, [], none⟩ : Engine) ∧
    rama_transparent_proxy_engine_stop
        (some (⟨.running, [], none⟩ : Engine)) 3 =
        some (⟨.stopped, [], some 3⟩ : Engine) ∧
    rama_transparent_proxy_engine_stop (some (Engine.new [])) 5 =
        some (Engine.new []) :=
  ⟨(engine_lifecycle (Engine.new []) 3).1 rfl,
   (engine_lifecycle ⟨.running, [], none⟩ 3).2.2.1 rfl,
   (engine_lifecycle ⟨.running, [], none⟩ 3).2.1 rfl,
   (engine_lifecycle (Engine.new []) 5).2.2.2 (by decide)⟩

end RamaNE
